import Mathlib

/-!
Verification of the rigpage serial-terminal application (src/index.ts).

The development shallowly embeds the parts of the program the claims are
about:

* the frame codec `toXK852Cmd` (index.ts lines 374-381), with byte
  buffers modelled as `List ℕ` and the `Uint8Array` writes modelled
  explicitly (`set` and `uint8ArraySetFrom` for `msg.set(m, 1)`);
* the frequency handler `setFrequency` (lines 335-343), with
  JavaScript's `Math.round` on the exact rational `value / 10` and
  `String.prototype.padStart` modelled faithfully;
* the port-selection registry `findPortOption` / `addNewPort` /
  `maybeAddNewPort` (lines 51-95) and the hot-plug `connect` listener
  (lines 297-303), with DOM option identity modelled by an `oid` field;
* the read loop of `connectToPort` (lines 178-217) as a function of the
  stream of read outcomes, the error/open phase of `connectToPort`
  (lines 143-176), `disconnectFromPort` (lines 236-258) and
  `sendSerial` (lines 349-358).

Log Sink writes (`dumpSerialOut`, lines 123-127) are modelled as a list
of `LogMsg` values, one constructor per call site, with `LogMsg.render`
giving the exact string each call site passes.
-/

namespace Rigpage

/-! ## Frame codec (index.ts lines 374-381) -/

/-- UTF-8 encoding of a string as natural-number bytes; this models
`encoder.encode(cmd)` where `encoder = new TextEncoder()` (line 42). -/
def utf8Bytes (s : String) : List ℕ :=
  (s.data.flatMap String.utf8EncodeChar).map (fun b => b.toNat)

/-- Model of `Uint8Array.prototype.set(src, offset)`: copy `src` into the
array starting at `offset` (line 378: `msg.set(m, 1)`). -/
def uint8ArraySetFrom (arr : List ℕ) (src : List ℕ) (offset : ℕ) : List ℕ :=
  match src with
  | [] => arr
  | b :: bs => uint8ArraySetFrom (arr.set offset b) bs (offset + 1)

/-- Model of `toXK852Cmd` (lines 374-381): allocate a zero-filled buffer of
length `m.length + 2` (`new Uint8Array(m.length + 2)`), write 10 (LF) at
index 0, copy the UTF-8 bytes at offset 1, and write 13 (CR) at index
`m.length + 1`. -/
def toXK852Cmd (cmd : String) : List ℕ :=
  let m := utf8Bytes cmd
  let msg0 := List.replicate (m.length + 2) 0
  let msg1 := msg0.set 0 10
  let msg2 := uint8ArraySetFrom msg1 m 1
  msg2.set (m.length + 1) 13

theorem uint8ArraySetFrom_cons (src : List ℕ) (a : ℕ) (arr : List ℕ) (i : ℕ) :
    uint8ArraySetFrom (a :: arr) src (i + 1) = a :: uint8ArraySetFrom arr src i := by
  induction src generalizing a arr i with
  | nil => rfl
  | cons b bs ih =>
      simp only [uint8ArraySetFrom, List.set]
      exact ih a (arr.set i b) (i + 1)

theorem uint8ArraySetFrom_fill (src rest : List ℕ) :
    uint8ArraySetFrom (List.replicate src.length 0 ++ rest) src 0 = src ++ rest := by
  induction src generalizing rest with
  | nil => rfl
  | cons b bs ih =>
      simp only [List.length_cons, List.replicate_succ, List.cons_append,
        uint8ArraySetFrom, List.set, List.append_eq]
      rw [uint8ArraySetFrom_cons]
      rw [ih rest]

theorem set_at_length (l : List ℕ) (x y : ℕ) :
    (l ++ [x]).set l.length y = l ++ [y] := by
  induction l with
  | nil => rfl
  | cons a as ih =>
      simp only [List.cons_append, List.length_cons, List.set, List.append_eq]
      rw [ih]

theorem toXK852Cmd_eq (cmd : String) :
    toXK852Cmd cmd = 10 :: (utf8Bytes cmd ++ [13]) := by
  unfold toXK852Cmd
  simp only []
  have h0 : List.replicate (List.length (utf8Bytes cmd) + 2) 0 =
      0 :: List.replicate (List.length (utf8Bytes cmd) + 1) (0 : ℕ) := by
    rw [List.replicate_succ]
  rw [h0]
  simp only [List.set]
  have h1 : List.replicate (List.length (utf8Bytes cmd) + 1) (0 : ℕ) =
      List.replicate (List.length (utf8Bytes cmd)) 0 ++ [0] := by
    rw [List.replicate_succ']
  rw [h1]
  rw [uint8ArraySetFrom_cons]
  rw [uint8ArraySetFrom_fill]
  simp only [List.set]
  rw [set_at_length]

/-! ## Frequency handler (index.ts lines 335-343) -/

/-- JavaScript `Math.round` on a non-negative exact value: the floor of
`x + 1/2` (round half away from zero; for the non-negative inputs of this
program, half up). -/
def mathRound (x : ℚ) : ℤ := Int.floor (x + 1 / 2)

/-- Repeated concatenation of a character list, used to model the repetition
of the pad string in `String.prototype.padStart`. -/
def repeatChars (l : List Char) : ℕ → List Char
  | 0 => []
  | n + 1 => l ++ repeatChars l n

/-- Model of `String.prototype.padStart(targetLength, padString)`: if the
receiver is at least `target` long (or the pad string is empty) it is
returned unchanged; otherwise copies of `pad` are prepended, truncated on
the left so the result has length exactly `target`. -/
def jsPadStart (s : String) (target : ℕ) (pad : String) : String :=
  if target ≤ s.length ∨ pad.data.length = 0 then s
  else
    let fill := target - s.length
    ⟨(repeatChars pad.data (fill / pad.data.length + 1)).take fill ++ s.data⟩

/-- Model of `setFrequency` (lines 335-343) up to the command string it
builds: `f = Math.round(value / 10)`, `fstring = String(f).padStart(7,
'0000000')`, `cmd = `*F${fstring}``.  The input element's numeric value is
modelled as a natural number (the claims concern non-negative inputs). -/
def setFrequencyCmd (v : ℕ) : String :=
  "*F" ++ jsPadStart (toString (mathRound ((v : ℚ) / 10))) 7 ("0000000")

/-- Model of `setFrequency`'s full effect on the wire: the command string is
encoded through the frame codec and handed to `sendSerial` (line 341). -/
def setFrequencyBytes (v : ℕ) : List ℕ := toXK852Cmd (setFrequencyCmd v)

/-- Left zero-padding of a string to `n` characters, written from the spec
wording "left-pads the decimal representation with zeros to 7 digits": a
second definition to compare `jsPadStart` against. -/
def zeroPad (n : ℕ) (s : String) : String :=
  ⟨List.replicate (n - s.data.length) '0' ++ s.data⟩

theorem mathRound_div10 (v : ℕ) :
    mathRound ((v : ℚ) / 10) = ((v + 5) / 10 : ℕ) := by
  unfold mathRound
  have h10 : (0 : ℚ) < 10 := by norm_num
  have heq : ((v : ℚ) / 10 + 1 / 2) = ((v : ℚ) + 5) / 10 := by ring
  rw [heq, Int.floor_eq_iff]
  constructor
  · rw [le_div_iff₀ h10]
    exact_mod_cast (by omega : (v + 5) / 10 * 10 ≤ v + 5)
  · rw [div_lt_iff₀ h10]
    exact_mod_cast (by omega : v + 5 < ((v + 5) / 10 + 1) * 10)

theorem toString_natCast_int (n : ℕ) : toString ((n : ℤ)) = Nat.repr n := rfl

theorem repeatChars_replicate (c : Char) (k r : ℕ) :
    repeatChars (List.replicate k c) r = List.replicate (k * r) c := by
  induction r with
  | zero => simp [repeatChars]
  | succ n ih =>
      simp only [repeatChars, ih, Nat.mul_succ]
      rw [Nat.add_comm (k * n) k, ← List.replicate_add]

theorem jsPadStart_zero (s : String) :
    jsPadStart s 7 ("0000000") = zeroPad 7 s := by
  unfold jsPadStart zeroPad
  have hpad : ("0000000" : String).data = List.replicate 7 '0' := by decide
  by_cases h : 7 ≤ s.length
  · rw [if_pos (Or.inl h)]
    have hz : 7 - s.data.length = 0 := by
      have : s.length = s.data.length := rfl
      omega
    rw [hz]
    simp only [List.replicate_zero, List.nil_append]
  · have hlen : ¬(7 ≤ s.length ∨ ("0000000" : String).data.length = 0) := by
      rw [hpad]
      simp only [List.length_replicate]
      omega
    rw [if_neg hlen]
    rw [hpad]
    simp only [List.length_replicate]
    rw [repeatChars_replicate]
    rw [List.take_replicate]
    have hslen : s.length = s.data.length := rfl
    have hmin : min (7 - s.length) (7 * ((7 - s.length) / 7 + 1)) = 7 - s.data.length := by
      rw [← hslen]
      have h1 : 7 - s.length ≤ 7 * ((7 - s.length) / 7 + 1) := by omega
      omega
    rw [hmin]

theorem setFrequencyCmd_eq (v : ℕ) :
    setFrequencyCmd v = "*F" ++ zeroPad 7 (Nat.repr ((v + 5) / 10)) := by
  unfold setFrequencyCmd
  rw [mathRound_div10]
  rw [toString_natCast_int]
  rw [jsPadStart_zero]

/-! ## Port registry (index.ts lines 51-95 and the hot-plug listeners,
lines 297-310)

A DOM `<option>` element of the selector is modelled by `PortOption`.  The
`oid` field stands for JavaScript object identity (two calls to
`document.createElement` never yield the same object); `value` is the
option's `value` property, which for an option created without a value
attribute defaults to its text content (`Port N`, line 75); `port` is the
expando property set at line 76, absent (`none`) on the static `prompt`
placeholder option. -/

structure PortOption where
  oid : ℕ
  value : String
  port : Option ℕ
deriving DecidableEq

/-- The mutable state the registry functions touch: the selector's options
list, the module-level `portCounter` (line 35) and a fresh-identity
counter standing for the allocator. -/
structure Selector where
  options : List PortOption
  portCounter : ℕ
  nextOid : ℕ
deriving DecidableEq

/-- Model of `findPortOption` (lines 51-65): scan the options in order,
skip any option whose `value` is `prompt`, return the first whose `port`
property is identical to the argument. -/
def findPortOption (opts : List PortOption) (p : ℕ) : Option PortOption :=
  match opts with
  | [] => none
  | o :: rest =>
      if o.value = "prompt" then findPortOption rest p
      else if o.port = some p then some o
      else findPortOption rest p

/-- Model of `addNewPort` (lines 73-79): create a fresh option labelled
`Port N` (whose `value` defaults to that label), attach the port, append
it to the selector, increment the counter, and return the new option. -/
def addNewPort (sel : Selector) (p : ℕ) : PortOption × Selector :=
  let o : PortOption :=
    { oid := sel.nextOid
      value := "Port " ++ Nat.repr sel.portCounter
      port := some p }
  (o, { options := sel.options ++ [o]
        portCounter := sel.portCounter + 1
        nextOid := sel.nextOid + 1 })

/-- Model of `maybeAddNewPort` (lines 88-95): return the option found by
`findPortOption`, otherwise add a new one. -/
def maybeAddNewPort (sel : Selector) (p : ℕ) : PortOption × Selector :=
  match findPortOption sel.options p with
  | some o => (o, sel)
  | none => addNewPort sel p

/-- Model of the hot-plug `connect` listener (lines 298-303): it calls
`addNewPort` directly — with no preceding lookup — on the handle reported
by the event.  (The `connectToPort()` call it also makes does not touch
the options list.) -/
def connectListener (sel : Selector) (p : ℕ) : Selector :=
  (addNewPort sel p).2

/-- Number of options in the selector referencing the handle `p`. -/
def countFor (sel : Selector) (p : ℕ) : ℕ :=
  (sel.options.filter (fun o => o.port == some p)).length

theorem portLabel_ne_prompt (n : ℕ) : ("Port " ++ Nat.repr n) ≠ "prompt" := by
  intro h
  have h2 : ("Port " ++ Nat.repr n).data = ("prompt" : String).data :=
    congrArg String.data h
  have h3 : ("Port " ++ Nat.repr n).data = ("Port " : String).data ++ (Nat.repr n).data := rfl
  rw [h3] at h2
  have h4 : ("Port " : String).data = ['P', 'o', 'r', 't', ' '] := by decide
  have h5 : ("prompt" : String).data = ['p', 'r', 'o', 'm', 'p', 't'] := by decide
  rw [h4, h5] at h2
  simp only [List.cons_append, List.cons.injEq] at h2
  exact absurd h2.1 (by decide)

theorem findPortOption_append_none (l l' : List PortOption) (p : ℕ)
    (h : findPortOption l p = none) :
    findPortOption (l ++ l') p = findPortOption l' p := by
  induction l with
  | nil => rfl
  | cons o rest ih =>
      by_cases hv : o.value = "prompt"
      · simp only [List.cons_append, findPortOption, List.append_eq] at h ⊢
        rw [if_pos hv] at h ⊢
        exact ih h
      · by_cases hp : o.port = some p
        · exfalso
          simp only [findPortOption, if_neg hv, if_pos hp] at h
          exact Option.noConfusion h
        · simp only [List.cons_append, findPortOption, if_neg hv, if_neg hp,
            List.append_eq] at h ⊢
          exact ih h

theorem maybeAddNewPort_idem (sel : Selector) (p : ℕ) :
    maybeAddNewPort (maybeAddNewPort sel p).2 p = maybeAddNewPort sel p := by
  unfold maybeAddNewPort
  cases hfind : findPortOption sel.options p with
  | some o => simp only [hfind]
  | none =>
      simp only [hfind]
      unfold addNewPort
      simp only []
      rw [findPortOption_append_none sel.options _ p hfind]
      unfold findPortOption
      rw [if_neg (portLabel_ne_prompt sel.portCounter)]
      rw [if_pos rfl]

/-! ## Log Sink (index.ts lines 123-127)

Each `dumpSerialOut` call site of the program gets one constructor; the
`render` function gives the exact string that call site passes. -/

inductive LogMsg where
  | connectedMark : LogMsg
  | disconnectedMark : LogMsg
  | errorLine (msg : String) : LogMsg
  | errorBare (msg : String) : LogMsg
  | dataChunk (s : String) : LogMsg
deriving DecidableEq

/-- The exact string each `dumpSerialOut` call site passes: line 166
(`<CONNECTED>`), line 133 (`<DISCONNECTED>`), lines 172 and 208
(newline-terminated error), lines 225 and 252 (bare error), line 197
(decoded chunk). -/
def LogMsg.render : LogMsg → String
  | connectedMark => "<CONNECTED>\n"
  | disconnectedMark => "<DISCONNECTED>\n"
  | errorLine m => "<ERROR: " ++ m ++ ">\n"
  | errorBare m => "<ERROR: " ++ m ++ ">"
  | dataChunk s => s

/-- Whether a log message is one of the `<ERROR: ...>` lines. -/
def LogMsg.isError : LogMsg → Bool
  | errorLine _ => true
  | errorBare _ => true
  | _ => false

/-- Model of `dumpSerialOut` (lines 123-127) for the purposes of claim
C10: given whether the `serialOut` element exists and whether a callback
was passed, it returns whether the callback fired.  Line 126 invokes the
callback unconditionally whenever one is provided. -/
def dumpSerialOutCallbackFired (_elementExists : Bool) (callbackProvided : Bool) : Bool :=
  callbackProvided

/-! ## The read loop of `connectToPort` (index.ts lines 178-217)

The loop is driven by the host: each `await reader.read(...)` either
resolves with a chunk (`{value, done:false}`), resolves with
`{value:undefined, done:true}` (end of stream, or the cancel performed by
`disconnectFromPort`), or rejects.  A run of the loop is therefore a
function of the sequence of read outcomes.  `ReadEv.disc` stands for
`disconnectFromPort` running while the read is pending: it first sets the
module-level `port` to `undefined` (line 240) and then cancels the reader
(line 243), which makes the pending read resolve with `done:true`. -/

inductive ReadEv where
  | chunk (s : String) : ReadEv
  | eof : ReadEv
  | disc : ReadEv
  | errE (msg : String) : ReadEv
  | errX : ReadEv
deriving DecidableEq

inductive LoopRes where
  | blocked : LoopRes
  | exited : LoopRes
  | hung : LoopRes
deriving DecidableEq

structure LoopOut where
  log : List LogMsg
  res : LoopRes
  readerReleased : Bool
deriving DecidableEq

/-- Whether the recovery promise awaited in the catch branch (lines
206-210) ever resolves: its executor calls `dumpSerialOut(msg, resolve)`
only when `e instanceof Error`, and `dumpSerialOut` fires the callback
whenever one is provided. -/
def recoveryResolves (eIsError : Bool) : Bool :=
  if eIsError then dumpSerialOutCallbackFired true true else false

/-- One run of the read loop (lines 178-217) as a function of the read
outcomes:

* `chunk s` — `value` non-empty: the decoded text is forwarded to the Log
  Sink (lines 194-199) and the loop reads again;
* `eof` — `done` with the port still set: the inner loop breaks, the
  `finally` releases the reader, and the outer `while` re-enters (lines
  200-202, 211-216, 178);
* `disc` — `disconnectFromPort` ran: `port` is now `undefined` and the
  cancelled read resolved with `done:true` and no value, so nothing is
  logged, the inner loop breaks, the reader is released, and the outer
  `while` test fails: the loop exits;
* `errE m` — the read rejected with an `Error`: the catch logs the error
  line, its promise resolves, the reader is released and the `while`
  re-enters;
* `errX` — the read rejected with a non-`Error` value: the catch branch
  awaits a promise that never resolves (`recoveryResolves false`), so the
  `finally` never runs: the loop is hung with the reader still held;
* an exhausted event list means the current read is still pending
  (`blocked`). -/
def loopRun : List ReadEv → LoopOut
  | [] => { log := [], res := LoopRes.blocked, readerReleased := false }
  | ReadEv.chunk s :: rest =>
      let o := loopRun rest
      { o with log := LogMsg.dataChunk s :: o.log }
  | ReadEv.eof :: rest => loopRun rest
  | ReadEv.disc :: _ =>
      { log := [], res := LoopRes.exited, readerReleased := true }
  | ReadEv.errE m :: rest =>
      if recoveryResolves true then
        let o := loopRun rest
        { o with log := LogMsg.errorLine m :: o.log }
      else
        { log := [LogMsg.errorLine m], res := LoopRes.hung, readerReleased := false }
  | ReadEv.errX :: _ =>
      if recoveryResolves false then loopRun []
      else { log := [], res := LoopRes.hung, readerReleased := false }

/-! ## The open phase of `connectToPort` (index.ts lines 143-176) -/

inductive OpenRes where
  | ok : OpenRes
  | failErr (msg : String) : OpenRes
  | failNonErr : OpenRes
deriving DecidableEq

/-- Is the open outcome a rejection with an `Error`? -/
def OpenRes.isFailErr : OpenRes → Bool
  | failErr _ => true
  | _ => false

structure ConnectOut where
  log : List LogMsg
  port : Option ℕ
  connected : Bool
  threw : Bool
deriving DecidableEq

/-- Model of `connectToPort` (lines 143-176) up to the start of the read
loop, for a click in the Disconnected state with the selector on the
`prompt` entry.  `chooser` is the outcome of `serial.requestPort({})`
(line 105): `none` when the user dismissed the chooser (the promise
rejected, caught at lines 106-108 by a bare `return`, leaving `port`
undefined so line 145-147 returns with no log); `some h` the chosen
handle.  `openRes` is the outcome of `port.open(options)` (line 165): on
an `Error` rejection line 172 logs the error line and `markDisconnected`
(line 174, lines 132-138) logs the disconnect marker and clears `port`;
on a non-`Error` rejection only `markDisconnected` runs.  No path
re-throws. -/
def connectPhase (chooser : Option ℕ) (openRes : OpenRes) : ConnectOut :=
  match chooser with
  | none => { log := [], port := none, connected := false, threw := false }
  | some h =>
      match openRes with
      | OpenRes.ok =>
          { log := [LogMsg.connectedMark], port := some h
            connected := true, threw := false }
      | OpenRes.failErr m =>
          { log := [LogMsg.errorLine m, LogMsg.disconnectedMark], port := none
            connected := false, threw := false }
      | OpenRes.failNonErr =>
          { log := [LogMsg.disconnectedMark], port := none
            connected := false, threw := false }

/-! ## `disconnectFromPort` (index.ts lines 236-258) -/

inductive CloseRes where
  | ok : CloseRes
  | failErr (msg : String) : CloseRes
  | failNonErr : CloseRes
deriving DecidableEq

inductive DiscStep where
  | setPortNone : DiscStep
  | cancelReader : DiscStep
  | closePort : DiscStep
  | markDisc : DiscStep
deriving DecidableEq

structure DiscOut where
  steps : List DiscStep
  port : Option ℕ
  log : List LogMsg
  threw : Bool
deriving DecidableEq

/-- Model of `disconnectFromPort` (lines 236-258): `port` is saved into
`localPort` and the module-level reference is cleared (lines 239-240)
before anything else; a pending reader is cancelled (lines 242-244);
`localPort.close()` is attempted when a port was set (lines 246-255),
with any `Error` rejection logged and swallowed; and `markDisconnected`
(line 257) always runs, logging the disconnect marker and clearing
`port` again.  `steps` records the order of the externally visible
actions. -/
def disconnectFromPort (port0 : Option ℕ) (hasReader : Bool) (closeRes : CloseRes) : DiscOut :=
  let pre := DiscStep.setPortNone ::
    (if hasReader then [DiscStep.cancelReader] else [])
  match port0 with
  | none =>
      { steps := pre ++ [DiscStep.markDisc], port := none
        log := [LogMsg.disconnectedMark], threw := false }
  | some _ =>
      match closeRes with
      | CloseRes.ok =>
          { steps := pre ++ [DiscStep.closePort, DiscStep.markDisc], port := none
            log := [LogMsg.disconnectedMark], threw := false }
      | CloseRes.failErr m =>
          { steps := pre ++ [DiscStep.closePort, DiscStep.markDisc], port := none
            log := [LogMsg.errorBare m, LogMsg.disconnectedMark], threw := false }
      | CloseRes.failNonErr =>
          { steps := pre ++ [DiscStep.closePort, DiscStep.markDisc], port := none
            log := [LogMsg.disconnectedMark], threw := false }

/-! ## `sendSerial` (index.ts lines 349-358) -/

structure SendOut where
  writes : List (List ℕ)
  warned : Bool
  threw : Bool
deriving DecidableEq

/-- Model of `sendSerial` (lines 349-358).  The first argument captures
`port?.writable`: `none` when no port is set, `some false` when a port is
set but its `writable` stream is null, `some true` when a writable
stream exists.  When `port?.writable == null` (line 350) the function
warns and returns without writing; otherwise it acquires a writer,
writes the buffer once, and releases the lock. -/
def sendSerial (writablePort : Option Bool) (data : List ℕ) : SendOut :=
  match writablePort with
  | some true => { writes := [data], warned := false, threw := false }
  | _ => { writes := [], warned := true, threw := false }

/-! ## Claim theorems -/

/-- C1: for every input string `text`, the frame codec `toXK852Cmd` returns
exactly the byte 0x0A, followed by the UTF-8 encoding of `text`, followed
by 0x0D; in particular on "*F0000150" it returns
[10, 42, 70, 48, 48, 48, 48, 49, 53, 48, 13].  Being a total Lean
function, it is pure and deterministic with no error cases. -/
theorem claim_C1_frame_codec :
    (∀ s : String, toXK852Cmd s = 10 :: (utf8Bytes s ++ [13]))
    ∧ toXK852Cmd ("*F0000150") = [10, 42, 70, 48, 48, 48, 48, 49, 53, 48, 13] := by
  refine ⟨toXK852Cmd_eq, ?_⟩
  rw [toXK852Cmd_eq]
  decide

/-- C2: for every non-negative numeric input `v`, `setFrequency` sends —
through the frame codec — the command string `*F` followed by the decimal
representation of `(v + 5) / 10` left-padded with zeros to 7 digits, and
`(v + 5) / 10` is exactly the half-up rounding of `v / 10`: it is the
integer `r` with `10 * r ≤ v + 5 < 10 * r + 10`.  At the spec's check
value 15005 the command string is `*F0001501`. -/
theorem claim_C2_setFrequency_format :
    (∀ v : ℕ,
      setFrequencyBytes v = toXK852Cmd ("*F" ++ zeroPad 7 (Nat.repr ((v + 5) / 10)))
      ∧ 10 * ((v + 5) / 10) ≤ v + 5 ∧ v + 5 < 10 * ((v + 5) / 10) + 10)
    ∧ setFrequencyCmd 15005 = "*F0001501" := by
  constructor
  · intro v
    refine ⟨?_, by omega, by omega⟩
    unfold setFrequencyBytes
    rw [setFrequencyCmd_eq]
  · rw [setFrequencyCmd_eq]
    decide

/-- C3 counterexample: at frequency input 15000 the command string
`setFrequency` produces is not `*F0000150`. -/
theorem claim_C3_counterexample :
    setFrequencyCmd 15000 ≠ "*F0000150" := by
  rw [setFrequencyCmd_eq]
  decide

/-- C3 amended: at frequency input 15000 the command string produced and
sent by `setFrequency` is exactly `*F0001500` (15000 / 10 = 1500,
zero-padded to 7 digits). -/
theorem claim_C3_amended_value_15000 :
    setFrequencyCmd 15000 = "*F0001500"
    ∧ setFrequencyBytes 15000 = toXK852Cmd ("*F0001500") := by
  constructor
  · rw [setFrequencyCmd_eq]
    decide
  · unfold setFrequencyBytes
    rw [setFrequencyCmd_eq]
    rfl

/-- C4: however the loop behaved before the disconnect (any sequence of
chunks, end-of-stream re-entries and `Error` rejections, none of which
hang it), once `disconnectFromPort` runs while a read is pending the read
loop exits (the cancelled read resolves with `done`, the reader is
released, and the `while` test fails on the cleared port), and the whole
run is identical to the run truncated at the disconnect — in particular
no Log Sink write after it. -/
theorem claim_C4_disconnect_terminates_loop (pre post : List ReadEv)
    (h : ReadEv.errX ∉ pre) :
    loopRun (pre ++ ReadEv.disc :: post) = loopRun (pre ++ [ReadEv.disc])
    ∧ (loopRun (pre ++ [ReadEv.disc])).res = LoopRes.exited
    ∧ (loopRun (pre ++ [ReadEv.disc])).readerReleased = true := by
  induction pre with
  | nil => refine ⟨?_, ?_, ?_⟩ <;> simp only [List.nil_append, loopRun]
  | cons e rest ih =>
      have hrest : ReadEv.errX ∉ rest := by
        intro hc
        exact h (List.mem_cons_of_mem e hc)
      obtain ⟨ih1, ih2, ih3⟩ := ih hrest
      cases e with
      | chunk s =>
          refine ⟨?_, ?_, ?_⟩
          · simp only [List.cons_append, loopRun]
            rw [ih1]
          · simp only [List.cons_append, loopRun]
            exact ih2
          · simp only [List.cons_append, loopRun]
            exact ih3
      | eof =>
          refine ⟨?_, ?_, ?_⟩
          · simp only [List.cons_append, loopRun]
            exact ih1
          · simp only [List.cons_append, loopRun]
            exact ih2
          · simp only [List.cons_append, loopRun]
            exact ih3
      | disc =>
          refine ⟨?_, ?_, ?_⟩ <;> simp only [List.cons_append, loopRun]
      | errE m =>
          refine ⟨?_, ?_, ?_⟩
          · simp only [List.cons_append, loopRun, recoveryResolves,
              dumpSerialOutCallbackFired, if_true]
            rw [ih1]
          · simp only [List.cons_append, loopRun, recoveryResolves,
              dumpSerialOutCallbackFired, if_true]
            exact ih2
          · simp only [List.cons_append, loopRun, recoveryResolves,
              dumpSerialOutCallbackFired, if_true]
            exact ih3
      | errX => exact absurd (List.mem_cons_self _ _) h

/-- C4 witness: a concrete run with one chunk and one recovered error
before the disconnect, and one would-be chunk after it. -/
theorem claim_C4_witness :
    (ReadEv.errX ∉ [ReadEv.chunk ("abc"), ReadEv.errE ("boom")])
    ∧ (loopRun ([ReadEv.chunk ("abc"), ReadEv.errE ("boom")] ++
          ReadEv.disc :: [ReadEv.chunk ("zzz")]) =
        loopRun ([ReadEv.chunk ("abc"), ReadEv.errE ("boom")] ++ [ReadEv.disc])
      ∧ (loopRun ([ReadEv.chunk ("abc"), ReadEv.errE ("boom")] ++ [ReadEv.disc])).res =
          LoopRes.exited
      ∧ (loopRun ([ReadEv.chunk ("abc"), ReadEv.errE ("boom")] ++
          [ReadEv.disc])).readerReleased = true) :=
  ⟨by decide,
   claim_C4_disconnect_terminates_loop [ReadEv.chunk ("abc"), ReadEv.errE ("boom")]
     [ReadEv.chunk ("zzz")] (by decide)⟩

/-- C5 counterexample: when the user dismisses the device chooser the
connect attempt fails (it does not reach the Connected state) yet nothing
at all is logged — contradicting the claim that every failure logs an
error line. -/
theorem claim_C5_counterexample :
    (connectPhase none OpenRes.ok).connected = false
    ∧ (connectPhase none OpenRes.ok).log = [] :=
  ⟨rfl, rfl⟩

/-- C5 amended: every failure of the connect attempt leaves the port
reference cleared and throws nothing to the caller, and an `<ERROR: …>`
line is logged exactly when the open call rejected with an `Error`; user
cancellation of the chooser (and a non-`Error` open rejection) logs no
error line. -/
theorem claim_C5_amended_failure_behaviour (chooser : Option ℕ) (openRes : OpenRes)
    (hfail : (connectPhase chooser openRes).connected = false) :
    (connectPhase chooser openRes).threw = false
    ∧ (connectPhase chooser openRes).port = none
    ∧ (connectPhase chooser openRes).log.any LogMsg.isError =
        (chooser.isSome && OpenRes.isFailErr openRes) := by
  cases chooser with
  | none => exact ⟨rfl, rfl, rfl⟩
  | some h =>
      cases openRes with
      | ok => exact Bool.noConfusion hfail
      | failErr m => exact ⟨rfl, rfl, rfl⟩
      | failNonErr => exact ⟨rfl, rfl, rfl⟩

/-- C5 witness: a concrete failing open. -/
theorem claim_C5_witness :
    ((connectPhase (some 0) (OpenRes.failErr ("open failed"))).connected = false)
    ∧ ((connectPhase (some 0) (OpenRes.failErr ("open failed"))).threw = false
      ∧ (connectPhase (some 0) (OpenRes.failErr ("open failed"))).port = none
      ∧ (connectPhase (some 0) (OpenRes.failErr ("open failed"))).log.any LogMsg.isError =
          ((some (0 : ℕ)).isSome && OpenRes.isFailErr (OpenRes.failErr ("open failed")))) :=
  ⟨by decide,
   claim_C5_amended_failure_behaviour (some 0) (OpenRes.failErr ("open failed")) (by decide)⟩

/-- C6: `disconnectFromPort` clears the module-level port reference as its
very first action — before any cancel or close attempt — never throws,
ends with the port reference still cleared whatever the close outcome
(including a close that rejects), and always finishes with
`markDisconnected`. -/
theorem claim_C6_disconnect_clears_port_first (port0 : Option ℕ) (hasReader : Bool)
    (closeRes : CloseRes) :
    (disconnectFromPort port0 hasReader closeRes).steps.head? = some DiscStep.setPortNone
    ∧ (disconnectFromPort port0 hasReader closeRes).port = none
    ∧ (disconnectFromPort port0 hasReader closeRes).threw = false
    ∧ (disconnectFromPort port0 hasReader closeRes).steps.getLast? = some DiscStep.markDisc := by
  cases port0 <;> cases hasReader <;> cases closeRes <;> exact ⟨rfl, rfl, rfl, rfl⟩

/-- C7: when no writable port is set (no port at all, or a port whose
writable stream is null), `sendSerial` performs zero writes, raises
nothing, and only emits the diagnostic warning. -/
theorem claim_C7_send_without_port (writablePort : Option Bool) (data : List ℕ)
    (h : writablePort ≠ some true) :
    sendSerial writablePort data =
      { writes := [], warned := true, threw := false } := by
  cases writablePort with
  | none => rfl
  | some b =>
      cases b with
      | false => rfl
      | true => exact absurd rfl h

/-- C7 witness: sending a concrete buffer with no port set. -/
theorem claim_C7_witness :
    ((none : Option Bool) ≠ some true)
    ∧ sendSerial none [10, 42, 13] =
        { writes := [], warned := true, threw := false } :=
  ⟨by decide, claim_C7_send_without_port none [10, 42, 13] (by decide)⟩

/-- C8: for every selector state and handle, calling `maybeAddNewPort`
twice in succession returns the same option (same object identity) and
the same selector state both times: the second call finds what the first
created or found. -/
theorem claim_C8_ensureOption_idempotent (sel : Selector) (p : ℕ) :
    maybeAddNewPort (maybeAddNewPort sel p).2 p = maybeAddNewPort sel p :=
  maybeAddNewPort_idem sel p

/-- C9 counterexample: a selector already holding an option for handle 0;
after the hot-plug `connect` listener fires for that same handle, two
options reference it — the listener inserted without any identity
lookup. -/
theorem claim_C9_counterexample :
    countFor { options := [{ oid := 0, value := "Port 1", port := some 0 }],
               portCounter := 2, nextOid := 1 } 0 = 1
    ∧ countFor (connectListener
        { options := [{ oid := 0, value := "Port 1", port := some 0 }],
          portCounter := 2, nextOid := 1 } 0) 0 = 2 := by
  decide

/-- C9 amended: only the prompt path (`maybeAddNewPort`) performs an
identity lookup before insert — re-running it adds nothing — while the
hot-plug `connect` listener calls `addNewPort` unconditionally, always
appending one more option referencing the handle, so a connect event for
an already-listed handle duplicates its option. -/
theorem claim_C9_amended_hotplug_inserts_blindly (sel : Selector) (p : ℕ) :
    countFor (connectListener sel p) p = countFor sel p + 1
    ∧ (connectListener sel p).options.length = sel.options.length + 1
    ∧ (maybeAddNewPort (maybeAddNewPort sel p).2 p).2 = (maybeAddNewPort sel p).2 := by
  refine ⟨?_, ?_, congrArg Prod.snd (maybeAddNewPort_idem sel p)⟩
  · unfold countFor connectListener addNewPort
    simp only [List.filter_append, List.length_append]
    have : (List.filter (fun o => o.port == some p)
        [({ oid := sel.nextOid, value := "Port " ++ Nat.repr sel.portCounter,
            port := some p } : PortOption)]).length = 1 := by
      simp [List.filter]
    rw [this]
  · unfold connectListener addNewPort
    simp

/-- C10: if an iteration of the read loop rejects with a value that is not
an `instanceof Error`, the recovery promise in the catch branch never
resolves, so from that point the run is insensitive to any further events,
the loop is hung (`connectToPort` never completes, so the close and
`markDisconnected` code after the loop is unreachable), and the reader
lock is never released. -/
theorem claim_C10_nonError_throw_hangs (pre post : List ReadEv)
    (h1 : ReadEv.errX ∉ pre) (h2 : ReadEv.disc ∉ pre) :
    recoveryResolves false = false
    ∧ loopRun (pre ++ ReadEv.errX :: post) = loopRun (pre ++ [ReadEv.errX])
    ∧ (loopRun (pre ++ [ReadEv.errX])).res = LoopRes.hung
    ∧ (loopRun (pre ++ [ReadEv.errX])).readerReleased = false := by
  induction pre with
  | nil =>
      refine ⟨rfl, ?_, ?_, ?_⟩ <;>
        simp [loopRun, recoveryResolves, dumpSerialOutCallbackFired]
  | cons e rest ih =>
      have hrest1 : ReadEv.errX ∉ rest := by
        intro hc
        exact h1 (List.mem_cons_of_mem e hc)
      have hrest2 : ReadEv.disc ∉ rest := by
        intro hc
        exact h2 (List.mem_cons_of_mem e hc)
      obtain ⟨ih0, ih1, ih2, ih3⟩ := ih hrest1 hrest2
      cases e with
      | chunk s =>
          refine ⟨rfl, ?_, ?_, ?_⟩
          · simp only [List.cons_append, loopRun]
            rw [ih1]
          · simp only [List.cons_append, loopRun]
            exact ih2
          · simp only [List.cons_append, loopRun]
            exact ih3
      | eof =>
          refine ⟨rfl, ?_, ?_, ?_⟩
          · simp only [List.cons_append, loopRun]
            exact ih1
          · simp only [List.cons_append, loopRun]
            exact ih2
          · simp only [List.cons_append, loopRun]
            exact ih3
      | disc => exact absurd (List.mem_cons_self _ _) h2
      | errE m =>
          refine ⟨rfl, ?_, ?_, ?_⟩
          · simp only [List.cons_append, loopRun, recoveryResolves,
              dumpSerialOutCallbackFired, if_true]
            rw [ih1]
          · simp only [List.cons_append, loopRun, recoveryResolves,
              dumpSerialOutCallbackFired, if_true]
            exact ih2
          · simp only [List.cons_append, loopRun, recoveryResolves,
              dumpSerialOutCallbackFired, if_true]
            exact ih3
      | errX => exact absurd (List.mem_cons_self _ _) h1

/-- C10 witness: one chunk, then a non-`Error` rejection, then a would-be
chunk that the hung loop never processes. -/
theorem claim_C10_witness :
    (ReadEv.errX ∉ [ReadEv.chunk ("abc")])
    ∧ (ReadEv.disc ∉ [ReadEv.chunk ("abc")])
    ∧ (recoveryResolves false = false
      ∧ loopRun ([ReadEv.chunk ("abc")] ++ ReadEv.errX :: [ReadEv.chunk ("zzz")]) =
          loopRun ([ReadEv.chunk ("abc")] ++ [ReadEv.errX])
      ∧ (loopRun ([ReadEv.chunk ("abc")] ++ [ReadEv.errX])).res = LoopRes.hung
      ∧ (loopRun ([ReadEv.chunk ("abc")] ++ [ReadEv.errX])).readerReleased = false) :=
  ⟨by decide, by decide,
   claim_C10_nonError_throw_hangs [ReadEv.chunk ("abc")] [ReadEv.chunk ("zzz")]
     (by decide) (by decide)⟩

end Rigpage
